import Mathlib

/-!
Shallow embedding of the book_database backend (Express + Mongoose + Zod).

The embedded code is `src/backend/src/controllers/bookController.ts` together
with the Zod schemas in `src/backend/src/utils/validation.ts` and the Mongoose
model in `src/backend/src/models/Book.ts`.

Modelling conventions:
* The MongoDB collection is a `List Book` in insertion (natural) order.
  `Book.findOne {bookId}` is `List.find?`, `save` appends, `findOneAndUpdate`
  and `findOneAndDelete` act on the first matching document, `countDocuments`
  is `List.countP`, and `.sort().skip().limit()` is `mergeSort`/`drop`/`take`.
* JavaScript numbers that the code treats as integers (ids, ratings, pages,
  page/limit) are `Int`; counts are `Nat`.
* Dates are kept as their source strings (`JsDate := String`): the code only
  ever stores the parsed value and compares dates in range filters, and for
  ISO-8601 date strings lexicographic string order coincides with
  chronological order.  `dateAdded` is set from `new Date()` at request time,
  modelled as a `Nat` timestamp parameter `now` of `createBook`.
* `RegExp(search, 'i')` applied to a field is modelled as a case-insensitive
  substring test (`ciSub`), which is exactly its behaviour for search strings
  containing no regex metacharacters.
* Zod parse failures (`ZodError`, handled as HTTP 400) are `none`; the
  Prometheus timing code, `timestamps: true` bookkeeping fields and the
  `averageRating`/`topAuthors` aggregates of the stats endpoint have no
  observable effect on the properties below and are not modelled.
-/

/-- Date values, kept as their source strings; see the module docstring. -/
abbrev JsDate := String

/-- Stored book document, after the Mongoose schema in `models/Book.ts`. -/
structure Book where
  bookId : Int
  title : String
  author : String
  authorByLastName : Option String
  additionalAuthors : Option (List String)
  isbn : Option String
  isbn13 : Option Int
  rating : Int
  averageRating : Option Int
  publisher : Option String
  binding : Option String
  pages : Int
  beqValue : Int
  editionPublished : Option Int
  published : Option Int
  dateRead : Option JsDate
  dateAdded : Nat
  bookshelves : List String
  bookshelvesWithPositions : Option (List String)
  exclusiveShelf : String
  review : Option String
  spoiler : Option String
  privateNotes : Option String
  readCount : Int
  ownedCopies : Int
deriving DecidableEq, Repr

/-- Raw JSON body of a create/update request, as far as the Zod `bookSchema`
looks at it.  `none` is an absent key.  `bookId` is listed because a client may
send it (claim C9); Zod strips unknown keys, so `bookSchema` ignores it. -/
structure RawBook where
  bookId : Option Int := none
  title : Option String := none
  author : Option String := none
  authorByLastName : Option String := none
  additionalAuthors : Option (List String) := none
  isbn : Option String := none
  isbn13 : Option Int := none
  rating : Option Int := none
  averageRating : Option Int := none
  publisher : Option String := none
  binding : Option String := none
  pages : Option Int := none
  beqValue : Option Int := none
  editionPublished : Option Int := none
  published : Option Int := none
  dateRead : Option String := none
  bookshelves : Option (List String) := none
  bookshelvesWithPositions : Option (List String) := none
  exclusiveShelf : Option String := none
  review : Option String := none
  spoiler : Option String := none
  privateNotes : Option String := none
  readCount : Option Int := none
  ownedCopies : Option Int := none
deriving DecidableEq, Repr

/-- Output of a successful `bookSchema.parse`: required fields present,
defaults filled in, optional no-default fields kept as `Option`. -/
structure BookInput where
  title : String
  author : String
  authorByLastName : Option String
  additionalAuthors : Option (List String)
  isbn : Option String
  isbn13 : Option Int
  rating : Int
  averageRating : Option Int
  publisher : Option String
  binding : Option String
  pages : Int
  beqValue : Int
  editionPublished : Option Int
  published : Option Int
  dateRead : Option JsDate
  bookshelves : List String
  bookshelvesWithPositions : Option (List String)
  exclusiveShelf : String
  review : Option String
  spoiler : Option String
  privateNotes : Option String
  readCount : Int
  ownedCopies : Int
deriving DecidableEq, Repr

/-- Membership in the `exclusiveShelf` enumeration of both the Zod schema and
the Mongoose schema. -/
def validShelf (s : String) : Bool :=
  s == "read" || s == "currently-reading" || s == "to-read"

/-- Zod transform `val => val ? new Date(val) : undefined`: the empty string is
falsy and becomes `undefined`. -/
def jsDateOpt : Option String → Option JsDate
  | none => none
  | some s => if s == "" then none else some s

/-- The Zod `bookSchema.parse` from `utils/validation.ts`.  Required: `title`
(min length 1), `author` (min length 1), `pages` (min 1).  Bounded: `rating`
in [0,5] (default 0).  Enumerated: `exclusiveShelf` (default `to-read`).
Defaults: `beqValue := 0`, `bookshelves := []`, `readCount := 0`,
`ownedCopies := 0`.  Everything else optional; unknown keys (e.g. `bookId`)
are stripped. -/
def bookSchema (r : RawBook) : Option BookInput :=
  match r.title, r.author, r.pages with
  | some title, some author, some pages =>
    let rating := r.rating.getD 0
    let shelf := r.exclusiveShelf.getD "to-read"
    if title.length < 1 || author.length < 1 || pages < 1 ||
        rating < 0 || rating > 5 || !(validShelf shelf) then
      none
    else
      some { title, author, authorByLastName := r.authorByLastName,
             additionalAuthors := r.additionalAuthors, isbn := r.isbn,
             isbn13 := r.isbn13, rating, averageRating := r.averageRating,
             publisher := r.publisher, binding := r.binding, pages,
             beqValue := r.beqValue.getD 0,
             editionPublished := r.editionPublished, published := r.published,
             dateRead := jsDateOpt r.dateRead,
             bookshelves := r.bookshelves.getD [],
             bookshelvesWithPositions := r.bookshelvesWithPositions,
             exclusiveShelf := shelf, review := r.review, spoiler := r.spoiler,
             privateNotes := r.privateNotes, readCount := r.readCount.getD 0,
             ownedCopies := r.ownedCopies.getD 0 }
  | _, _, _ => none

/-- Characters JavaScript `parseInt` skips before reading digits. -/
def jsWhitespace (c : Char) : Bool :=
  c == ' ' || c == '\t' || c == '\n' || c == '\r' || c == '\x0b' || c == '\x0c'

/-- Hexadecimal digit test for the `0x` branch of `parseInt`. -/
def isHexDig (c : Char) : Bool :=
  c.isDigit || ('a' ≤ c && c ≤ 'f') || ('A' ≤ c && c ≤ 'F')

/-- Numeric value of a (decimal or hexadecimal) digit character. -/
def digVal (c : Char) : Nat :=
  if c.isDigit then c.toNat - 48
  else if 'a' ≤ c then c.toNat - 87
  else c.toNat - 55

/-- Value of a digit string in the given base. -/
def natFromDigits (base : Nat) (cs : List Char) : Nat :=
  cs.foldl (fun a c => a * base + digVal c) 0

/-- JavaScript `parseInt(s)` with no radix argument: skip leading whitespace,
read an optional sign, then the longest prefix of digits (hexadecimal after
`0x`/`0X`); `none` is `NaN` (no digits at all). -/
def parseIntJS (s : String) : Option Int :=
  let cs := s.toList.dropWhile jsWhitespace
  let sgn : Int := match cs with
    | '-' :: _ => -1
    | _ => 1
  let cs2 := match cs with
    | '-' :: r => r
    | '+' :: r => r
    | r => r
  match cs2 with
  | '0' :: c :: r =>
    if c == 'x' || c == 'X' then
      let ds := r.takeWhile isHexDig
      if ds.isEmpty then none else some (sgn * (natFromDigits 16 ds : Nat))
    else
      some (sgn * (natFromDigits 10 (('0' :: c :: r).takeWhile Char.isDigit) : Nat))
  | cs3 =>
    let ds := cs3.takeWhile Char.isDigit
    if ds.isEmpty then none else some (sgn * (natFromDigits 10 ds : Nat))

/-- Response of the single-book endpoints (`getBookById`, `createBook` body,
`updateBook`): HTTP status plus the JSON book payload when there is one. -/
structure BookResp where
  status : Nat
  book : Option Book
deriving DecidableEq, Repr

/-- Response carrying only a status and a message (delete endpoint). -/
structure MsgResp where
  status : Nat
deriving DecidableEq, Repr

/-- Mongo `Book.findOne().sort({bookId: -1})`: a document whose `bookId` is
maximal (`none` on an empty collection). -/
def maxIdBook : List Book → Option Book
  | [] => none
  | b :: bs =>
    match maxIdBook bs with
    | none => some b
    | some m => if m.bookId > b.bookId then some m else some b

/-- Builds the document `createBook` saves:
`new Book({...validatedData, bookId: newBookId, dateAdded: new Date()})`. -/
def mkBook (d : BookInput) (bookId : Int) (now : Nat) : Book :=
  { bookId, title := d.title, author := d.author,
    authorByLastName := d.authorByLastName,
    additionalAuthors := d.additionalAuthors, isbn := d.isbn,
    isbn13 := d.isbn13, rating := d.rating, averageRating := d.averageRating,
    publisher := d.publisher, binding := d.binding, pages := d.pages,
    beqValue := d.beqValue, editionPublished := d.editionPublished,
    published := d.published, dateRead := d.dateRead, dateAdded := now,
    bookshelves := d.bookshelves,
    bookshelvesWithPositions := d.bookshelvesWithPositions,
    exclusiveShelf := d.exclusiveShelf, review := d.review,
    spoiler := d.spoiler, privateNotes := d.privateNotes,
    readCount := d.readCount, ownedCopies := d.ownedCopies }

/-- Result of the create endpoint: status, response body, new collection. -/
structure CreateOut where
  status : Nat
  book : Option Book
  db : List Book
deriving DecidableEq, Repr

/-- The `createBook` controller: validate the body with `bookSchema` (400 on
failure), derive `newBookId` as `maxIdBook ? maxIdBook.bookId + 1 : 1`, save
the new document and answer 201 with it. -/
def createBook (db : List Book) (body : RawBook) (now : Nat) : CreateOut :=
  match bookSchema body with
  | none => ⟨400, none, db⟩
  | some d =>
    let newBookId : Int :=
      match maxIdBook db with
      | some m => m.bookId + 1
      | none => 1
    let newBook := mkBook d newBookId now
    ⟨201, some newBook, db ++ [newBook]⟩

/-- Lookup step shared by the id-based endpoints: `Book.findOne({bookId})`,
404 when absent. -/
def getBookByIdNum (db : List Book) (bookId : Int) : BookResp :=
  match db.find? (fun b => b.bookId == bookId) with
  | none => ⟨404, none⟩
  | some b => ⟨200, some b⟩

/-- The `getBookById` controller: `parseInt` the path parameter (400 on NaN),
then find the document. -/
def getBookById (db : List Book) (idStr : String) : BookResp :=
  match parseIntJS idStr with
  | none => ⟨400, none⟩
  | some n => getBookByIdNum db n

/-- Mongoose `$set` semantics for one optional path: an `undefined` value in
the update object is stripped, a present value replaces the stored one. -/
def setIfGiven {α : Type} (old new : Option α) : Option α :=
  match new with
  | some v => some v
  | none => old

/-- Effect of `findOneAndUpdate({bookId}, validatedData)` on the matched
document: `validatedData` contains no update operators, so Mongoose `$set`s
exactly its defined keys.  `bookId` and `dateAdded` are not in `bookSchema`'s
output and stay; optional keys that parsed to `undefined` are stripped. -/
def applyUpdate (b : Book) (d : BookInput) : Book :=
  { b with
    title := d.title,
    author := d.author,
    authorByLastName := setIfGiven b.authorByLastName d.authorByLastName,
    additionalAuthors := setIfGiven b.additionalAuthors d.additionalAuthors,
    isbn := setIfGiven b.isbn d.isbn,
    isbn13 := setIfGiven b.isbn13 d.isbn13,
    rating := d.rating,
    averageRating := setIfGiven b.averageRating d.averageRating,
    publisher := setIfGiven b.publisher d.publisher,
    binding := setIfGiven b.binding d.binding,
    pages := d.pages, beqValue := d.beqValue,
    editionPublished := setIfGiven b.editionPublished d.editionPublished,
    published := setIfGiven b.published d.published,
    dateRead := setIfGiven b.dateRead d.dateRead,
    bookshelves := d.bookshelves,
    bookshelvesWithPositions :=
      setIfGiven b.bookshelvesWithPositions d.bookshelvesWithPositions,
    exclusiveShelf := d.exclusiveShelf,
    review := setIfGiven b.review d.review,
    spoiler := setIfGiven b.spoiler d.spoiler,
    privateNotes := setIfGiven b.privateNotes d.privateNotes,
    readCount := d.readCount, ownedCopies := d.ownedCopies }

/-- Mongo `findOneAndUpdate({bookId}, d, {new: true})`: update the first
matching document, returning the new collection and the updated document. -/
def findOneAndUpdate (db : List Book) (bookId : Int) (d : BookInput) :
    List Book × Option Book :=
  match db with
  | [] => ([], none)
  | b :: bs =>
    if b.bookId == bookId then
      (applyUpdate b d :: bs, some (applyUpdate b d))
    else
      let r := findOneAndUpdate bs bookId d
      (b :: r.1, r.2)

/-- The `updateBook` controller: `parseInt` the id (400 on NaN), validate the
body (400 on failure), `findOneAndUpdate` (404 when no document matches). -/
def updateBook (db : List Book) (idStr : String) (body : RawBook) :
    BookResp × List Book :=
  match parseIntJS idStr with
  | none => (⟨400, none⟩, db)
  | some n =>
    match bookSchema body with
    | none => (⟨400, none⟩, db)
    | some d =>
      match findOneAndUpdate db n d with
      | (db2, none) => (⟨404, none⟩, db2)
      | (db2, some b) => (⟨200, some b⟩, db2)

/-- Mongo `findOneAndDelete({bookId})`: remove the first matching document. -/
def findOneAndDelete (db : List Book) (bookId : Int) :
    List Book × Option Book :=
  match db with
  | [] => ([], none)
  | b :: bs =>
    if b.bookId == bookId then (bs, some b)
    else
      let r := findOneAndDelete bs bookId
      (b :: r.1, r.2)

/-- The `deleteBook` controller: `parseInt` the id (400 on NaN),
`findOneAndDelete` (404 when no document matches, 200 with a message
otherwise). -/
def deleteBook (db : List Book) (idStr : String) : MsgResp × List Book :=
  match parseIntJS idStr with
  | none => (⟨400⟩, db)
  | some n =>
    match findOneAndDelete db n with
    | (db2, none) => (⟨404⟩, db2)
    | (db2, some _) => (⟨200⟩, db2)

/-- Counts and page sum reported by `getBookStats` (the rating average and
top-author aggregates are not needed by any claim). -/
structure BookStats where
  totalBooks : Nat
  readBooks : Nat
  readingBooks : Nat
  toReadBooks : Nat
  totalPagesRead : Int
deriving DecidableEq, Repr

/-- The `getBookStats` controller's four `countDocuments` queries and the
pages-read aggregate. -/
def getBookStats (db : List Book) : BookStats :=
  { totalBooks := db.length,
    readBooks := db.countP (fun b => b.exclusiveShelf == "read"),
    readingBooks := db.countP (fun b => b.exclusiveShelf == "currently-reading"),
    toReadBooks := db.countP (fun b => b.exclusiveShelf == "to-read"),
    totalPagesRead :=
      ((db.filter (fun b => b.exclusiveShelf == "read")).map (·.pages)).sum }

/-- Check that `pat` occurs at the start of `s` (on character lists). -/
def listStarts : List Char → List Char → Bool
  | [], _ => true
  | _ :: _, [] => false
  | p :: ps, c :: cs => p == c && listStarts ps cs

/-- Check that `pat` occurs somewhere inside `s` (on character lists). -/
def listHas (pat : List Char) : List Char → Bool
  | [] => listStarts pat []
  | c :: cs => listStarts pat (c :: cs) || listHas pat cs

/-- ASCII lower-casing of one character, the fragment of JavaScript case
folding the repository's data exercises. -/
def lowerChar (c : Char) : Char :=
  if 'A' ≤ c && c ≤ 'Z' then Char.ofNat (c.toNat + 32) else c

/-- Case-insensitive substring test: the meaning of
`new RegExp(search, 'i').test(field)` for a metacharacter-free `search`. -/
def ciSub (pat s : String) : Bool :=
  listHas (pat.toList.map lowerChar) (s.toList.map lowerChar)

/-- Regex test against an optional field: a document without the field does
not match. -/
def ciSubOpt (pat : String) : Option String → Bool
  | none => false
  | some s => ciSub pat s

/-- Sort direction accepted by `z.enum(['asc', 'desc'])`. -/
inductive SortOrder where
  | asc
  | desc
deriving DecidableEq, Repr

/-- Raw query string of the list endpoint, as far as `filterSchema` looks at
it; numeric parameters are modelled after `z.coerce`'s number conversion. -/
structure RawFilters where
  page : Option Int := none
  limit : Option Int := none
  sort : Option String := none
  order : Option String := none
  shelf : Option String := none
  search : Option String := none
  minRating : Option Int := none
  maxRating : Option Int := none
  startDate : Option String := none
  endDate : Option String := none
deriving DecidableEq, Repr

/-- Output of a successful `filterSchema.parse`. -/
structure FilterParams where
  page : Int
  limit : Int
  sort : String
  order : SortOrder
  shelf : Option String
  search : Option String
  minRating : Option Int
  maxRating : Option Int
  startDate : Option JsDate
  endDate : Option JsDate
deriving DecidableEq, Repr

/-- The Zod `filterSchema.parse` from `utils/validation.ts`: `page` and
`limit` positive with defaults 1 and 10, `sort` defaults to `dateAdded`,
`order` is `asc`/`desc` defaulting to `desc`, `minRating`/`maxRating` lie in
[0,5] when present, and the date bounds go through the empty-string-to-
`undefined` transform. -/
def filterSchema (q : RawFilters) : Option FilterParams :=
  let page := q.page.getD 1
  let limit := q.limit.getD 10
  let ratingOk : Option Int → Bool := fun r =>
    match r with
    | none => true
    | some v => decide (0 ≤ v) && decide (v ≤ 5)
  let orderVal : Option SortOrder :=
    match q.order with
    | none => some SortOrder.desc
    | some s =>
      if s == "asc" then some SortOrder.asc
      else if s == "desc" then some SortOrder.desc
      else none
  match orderVal with
  | none => none
  | some order =>
    if decide (page ≤ 0) || decide (limit ≤ 0) ||
        !(ratingOk q.minRating) || !(ratingOk q.maxRating) then
      none
    else
      some { page, limit, sort := q.sort.getD "dateAdded", order,
             shelf := q.shelf, search := q.search, minRating := q.minRating,
             maxRating := q.maxRating, startDate := jsDateOpt q.startDate,
             endDate := jsDateOpt q.endDate }

/-- Test of a document against the Mongo filter object built by `getBooks`.
JavaScript truthiness makes an empty `shelf` or `search` string add no
condition; the rating and date ranges are inclusive; a document without a
`dateRead` does not satisfy a date-range condition. -/
def matchesFilter (p : FilterParams) (b : Book) : Bool :=
  (match p.shelf with
   | none => true
   | some s => if s == "" then true else b.exclusiveShelf == s) &&
  (match p.minRating with
   | none => true
   | some m => decide (m ≤ b.rating)) &&
  (match p.maxRating with
   | none => true
   | some m => decide (b.rating ≤ m)) &&
  (if p.startDate == none && p.endDate == none then true
   else match b.dateRead with
     | none => false
     | some dr =>
       (match p.startDate with
        | none => true
        | some sd => decide (sd ≤ dr)) &&
       (match p.endDate with
        | none => true
        | some ed => decide (dr ≤ ed))) &&
  (match p.search with
   | none => true
   | some s =>
     if s == "" then true
     else ciSub s b.title || ciSub s b.author ||
       ciSubOpt s b.publisher || ciSubOpt s b.review)

/-- Comparison used by Mongo's `.sort({[field]: dir})` for the fields of the
schema the repository sorts on; a missing `dateRead` sorts like null, before
every date, and an unknown field imposes no order. -/
def sortFieldLe (field : String) (a b : Book) : Bool :=
  if field == "dateAdded" then decide (a.dateAdded ≤ b.dateAdded)
  else if field == "title" then decide (a.title ≤ b.title)
  else if field == "author" then decide (a.author ≤ b.author)
  else if field == "rating" then decide (a.rating ≤ b.rating)
  else if field == "pages" then decide (a.pages ≤ b.pages)
  else if field == "bookId" then decide (a.bookId ≤ b.bookId)
  else if field == "dateRead" then
    match a.dateRead, b.dateRead with
    | none, _ => true
    | some _, none => false
    | some x, some y => decide (x ≤ y)
  else true

/-- Mongo `.sort({[sort]: order === 'asc' ? 1 : -1})` as a stable sort. -/
def sortBooks (field : String) (order : SortOrder) (db : List Book) :
    List Book :=
  db.mergeSort (fun a b =>
    match order with
    | SortOrder.asc => sortFieldLe field a b
    | SortOrder.desc => sortFieldLe field b a)

/-- Body of a successful list response:
`{data, totalPages, currentPage, totalItems}`. -/
structure Paginated where
  data : List Book
  totalPages : Nat
  currentPage : Int
  totalItems : Nat
deriving DecidableEq, Repr

/-- Query phase of the `getBooks` controller on validated parameters:
`skip = (page-1)*limit`, `total = countDocuments(filter)`,
`find(filter).sort(...).skip(skip).limit(limit)`, and
`totalPages = Math.ceil(total/limit)` (written in its integer form, equal to
the ceiling for the positive `limit` validation guarantees). -/
def getBooksCore (db : List Book) (p : FilterParams) : Paginated :=
  let skip := ((p.page - 1) * p.limit).toNat
  let total := db.countP (matchesFilter p)
  let books :=
    ((sortBooks p.sort p.order (db.filter (matchesFilter p))).drop skip).take
      p.limit.toNat
  { data := books,
    totalPages := (total + p.limit.toNat - 1) / p.limit.toNat,
    currentPage := p.page,
    totalItems := total }

/-- Response of the list endpoint: 400 with no payload on a `ZodError`,
otherwise 200 with the paginated body. -/
structure ListOut where
  status : Nat
  payload : Option Paginated
deriving DecidableEq, Repr

/-- The `getBooks` controller: validate the query string, then run the
paginated query. -/
def getBooks (db : List Book) (q : RawFilters) : ListOut :=
  match filterSchema q with
  | none => ⟨400, none⟩
  | some p => ⟨200, some (getBooksCore db p)⟩

/-- Collections reachable from the empty one through the mutating public
endpoints (create, update, delete), with arbitrary request data; requests
that fail validation leave the collection unchanged and are included. -/
inductive Reachable : List Book → Prop where
  | empty : Reachable []
  | create : ∀ db body now, Reachable db → Reachable (createBook db body now).db
  | update : ∀ db idStr body, Reachable db →
      Reachable (updateBook db idStr body).2
  | del : ∀ db idStr, Reachable db → Reachable (deleteBook db idStr).2

/-- Concrete stored document used by witnesses and counterexamples. -/
def exBook : Book :=
  { bookId := 1, title := "Dune", author := "Frank Herbert",
    authorByLastName := none, additionalAuthors := none, isbn := none,
    isbn13 := none, rating := 5, averageRating := none,
    publisher := some "Pearson", binding := none, pages := 412,
    beqValue := 0, editionPublished := none, published := none,
    dateRead := none, dateAdded := 0, bookshelves := [],
    bookshelvesWithPositions := none, exclusiveShelf := "read",
    review := none, spoiler := none, privateNotes := none, readCount := 0,
    ownedCopies := 0 }

/-- Concrete request body with only the required fields. -/
def updBody : RawBook :=
  { title := some "Dune", author := some "Frank Herbert", pages := some 412 }

/-- Parse result of `updBody`: Zod has filled in every default. -/
def updParsed : BookInput :=
  { title := "Dune", author := "Frank Herbert", authorByLastName := none,
    additionalAuthors := none, isbn := none, isbn13 := none, rating := 0,
    averageRating := none, publisher := none, binding := none, pages := 412,
    beqValue := 0, editionPublished := none, published := none,
    dateRead := none, bookshelves := [], bookshelvesWithPositions := none,
    exclusiveShelf := "to-read", review := none, spoiler := none,
    privateNotes := none, readCount := 0, ownedCopies := 0 }

/-- Concrete list query carrying only a search string. -/
def searchQuery : RawFilters := { search := some "pearson" }

/-- Concrete create body carrying a client-supplied `bookId`. -/
def bodyWithClientId : RawBook :=
  { bookId := some 42, title := some "Dune", author := some "Frank Herbert",
    pages := some 412 }

/-- An empty list query (every parameter omitted). -/
def emptyQuery : RawFilters := {}

lemma bookSchema_updBody : bookSchema updBody = some updParsed := by decide

/-- Cons collections always have a maximum-id document. -/
lemma maxIdBook_cons_isSome (b : Book) (bs : List Book) :
    (maxIdBook (b :: bs)).isSome := by
  simp only [maxIdBook]
  cases maxIdBook bs with
  | none => simp
  | some m => by_cases h : m.bookId > b.bookId <;> simp [h]

/-- An absent maximum means the collection is empty. -/
lemma maxIdBook_eq_none {db : List Book} (h : maxIdBook db = none) :
    db = [] := by
  cases db with
  | nil => rfl
  | cons b bs =>
    have := maxIdBook_cons_isSome b bs
    rw [h] at this
    simp at this

/-- The document `maxIdBook` returns belongs to the collection and carries
its largest identifier. -/
lemma maxIdBook_spec :
    ∀ (db : List Book) (m : Book), maxIdBook db = some m →
      m ∈ db ∧ ∀ b ∈ db, b.bookId ≤ m.bookId := by
  intro db
  induction db with
  | nil => intro m h; simp [maxIdBook] at h
  | cons b bs ih =>
    intro m h
    simp only [maxIdBook] at h
    cases hmb : maxIdBook bs with
    | none =>
      rw [hmb] at h
      have hb : b = m := by simpa using h
      subst hb
      have hnil : bs = [] := maxIdBook_eq_none hmb
      subst hnil
      simp
    | some mb =>
      rw [hmb] at h
      obtain ⟨hmem, hmax⟩ := ih mb hmb
      by_cases hc : mb.bookId > b.bookId
      · simp only [hc, if_pos] at h
        have : mb = m := by simpa using h
        subst this
        refine ⟨List.mem_cons_of_mem _ hmem, ?_⟩
        intro x hx
        rcases List.mem_cons.mp hx with hx | hx
        · subst hx; omega
        · exact hmax x hx
      · simp only [hc, if_neg, not_false_iff] at h
        have : b = m := by simpa using h
        subst this
        refine ⟨List.mem_cons_self _ _, ?_⟩
        intro x hx
        rcases List.mem_cons.mp hx with hx | hx
        · subst hx; omega
        · have := hmax x hx; omega

/-- Successful parses only produce the three legal shelf values. -/
lemma bookSchema_validShelf {r : RawBook} {d : BookInput}
    (h : bookSchema r = some d) : validShelf d.exclusiveShelf = true := by
  unfold bookSchema at h
  split at h
  · dsimp only at h
    split at h
    · exact absurd h (by simp)
    · rename_i hcond
      rw [← Option.some.inj h]
      cases hv : validShelf (r.exclusiveShelf.getD "to-read") with
      | true => rfl
      | false => exact absurd (by simp [hv]) hcond
  · exact absurd h (by simp)

/-- An update that matches nothing writes nothing. -/
lemma findOneAndUpdate_not_found {db : List Book} {n : Int} (d : BookInput)
    (h : ∀ b ∈ db, ¬(b.bookId = n)) : findOneAndUpdate db n d = (db, none) := by
  induction db with
  | nil => rfl
  | cons b bs ih =>
    have hb : ¬(b.bookId = n) := h b (List.mem_cons_self _ _)
    have hbs : ∀ x ∈ bs, ¬(x.bookId = n) := fun x hx =>
      h x (List.mem_cons_of_mem _ hx)
    simp only [findOneAndUpdate, beq_iff_eq, if_neg hb, ih hbs]

/-- Every document in the collection after an update is either an old
document or the updated image of an old document. -/
lemma findOneAndUpdate_mem {db : List Book} {n : Int} {d : BookInput}
    {x : Book} (h : x ∈ (findOneAndUpdate db n d).1) :
    x ∈ db ∨ ∃ b ∈ db, x = applyUpdate b d := by
  induction db with
  | nil => simp [findOneAndUpdate] at h
  | cons b bs ih =>
    simp only [findOneAndUpdate] at h
    by_cases hb : b.bookId == n
    · rw [if_pos hb] at h
      rcases List.mem_cons.mp h with hx | hx
      · exact Or.inr ⟨b, List.mem_cons_self _ _, hx⟩
      · exact Or.inl (List.mem_cons_of_mem _ hx)
    · rw [if_neg hb] at h
      rcases List.mem_cons.mp h with hx | hx
      · exact Or.inl (hx ▸ List.mem_cons_self _ _)
      · rcases ih hx with hx' | ⟨y, hy, hxy⟩
        · exact Or.inl (List.mem_cons_of_mem _ hx')
        · exact Or.inr ⟨y, List.mem_cons_of_mem _ hy, hxy⟩

/-- A delete that matches nothing removes nothing. -/
lemma findOneAndDelete_not_found {db : List Book} {n : Int}
    (h : ∀ b ∈ db, ¬(b.bookId = n)) : findOneAndDelete db n = (db, none) := by
  induction db with
  | nil => rfl
  | cons b bs ih =>
    have hb : ¬(b.bookId = n) := h b (List.mem_cons_self _ _)
    have hbs : ∀ x ∈ bs, ¬(x.bookId = n) := fun x hx =>
      h x (List.mem_cons_of_mem _ hx)
    simp only [findOneAndDelete, beq_iff_eq, if_neg hb, ih hbs]

/-- Deleting only removes documents. -/
lemma findOneAndDelete_mem {db : List Book} {n : Int} {x : Book}
    (h : x ∈ (findOneAndDelete db n).1) : x ∈ db := by
  induction db with
  | nil => simp [findOneAndDelete] at h
  | cons b bs ih =>
    simp only [findOneAndDelete] at h
    by_cases hb : b.bookId == n
    · rw [if_pos hb] at h
      exact List.mem_cons_of_mem _ h
    · rw [if_neg hb] at h
      rcases List.mem_cons.mp h with hx | hx
      · exact hx ▸ List.mem_cons_self _ _
      · exact List.mem_cons_of_mem _ (ih hx)

/-- The updated book retains the fields the payload does not set. -/
lemma applyUpdate_shelf (b : Book) (d : BookInput) :
    (applyUpdate b d).exclusiveShelf = d.exclusiveShelf := rfl

/-- A collection whose shelves are all legal splits into the three shelf
counts. -/
lemma shelf_counts_partition :
    ∀ db : List Book, (∀ b ∈ db, validShelf b.exclusiveShelf = true) →
      db.countP (fun b => b.exclusiveShelf == "read") +
        db.countP (fun b => b.exclusiveShelf == "currently-reading") +
        db.countP (fun b => b.exclusiveShelf == "to-read") = db.length := by
  intro db
  induction db with
  | nil => intro _; rfl
  | cons b bs ih =>
    intro h
    have hb := h b (List.mem_cons_self _ _)
    have hbs := ih fun x hx => h x (List.mem_cons_of_mem _ hx)
    simp only [List.countP_cons, List.length_cons]
    simp only [validShelf, Bool.or_eq_true, beq_iff_eq] at hb
    rcases hb with (hb | hb) | hb
    all_goals simp [hb]
    all_goals omega

/-- The saved document carries exactly the identifier `createBook` chose. -/
lemma mkBook_bookId (d : BookInput) (i : Int) (now : Nat) :
    (mkBook d i now).bookId = i := rfl

/-- Search of an appended collection falls through a matchless front. -/
lemma find?_append_of_none {α : Type} {p : α → Bool} {l1 l2 : List α}
    (h : l1.find? p = none) : (l1 ++ l2).find? p = l2.find? p := by
  rw [List.find?_append, h, Option.none_or]

/-- C1: for every create request whose body passes validation, the identifier
assigned to the new record strictly exceeds every stored identifier and equals
some stored identifier plus one; on an empty collection it is 1. -/
theorem createBook_id_is_max_plus_one (db : List Book) (body : RawBook)
    (now : Nat) (d : BookInput) (hparse : bookSchema body = some d) :
    ∃ nb, (createBook db body now).book = some nb ∧
      (db = [] → nb.bookId = 1) ∧
      (∀ b ∈ db, b.bookId < nb.bookId) ∧
      (db ≠ [] → ∃ b ∈ db, nb.bookId = b.bookId + 1) := by
  unfold createBook
  rw [hparse]
  cases hm : maxIdBook db with
  | none =>
    refine ⟨mkBook d 1 now, rfl, fun _ => rfl, ?_, ?_⟩
    · intro b hb
      rw [maxIdBook_eq_none hm] at hb
      simp at hb
    · intro hne
      exact absurd (maxIdBook_eq_none hm) hne
  | some m =>
    obtain ⟨hmem, hmax⟩ := maxIdBook_spec db m hm
    refine ⟨mkBook d (m.bookId + 1) now, rfl, ?_, ?_, ?_⟩
    · intro h
      subst h
      simp at hmem
    · intro b hb
      have := hmax b hb
      rw [mkBook_bookId]
      omega
    · intro _
      exact ⟨m, hmem, by rw [mkBook_bookId]⟩

/-- C1 witness: creating into a one-book collection with maximum id 1 assigns
id 2 = 1 + 1. -/
theorem createBook_id_is_max_plus_one_witness :
    bookSchema updBody = some updParsed ∧
    ∃ nb, (createBook [exBook] updBody 7).book = some nb ∧
      ([exBook] = ([] : List Book) → nb.bookId = 1) ∧
      (∀ b ∈ [exBook], b.bookId < nb.bookId) ∧
      ([exBook] ≠ ([] : List Book) → ∃ b ∈ [exBook], nb.bookId = b.bookId + 1) :=
  ⟨bookSchema_updBody,
    createBook_id_is_max_plus_one [exBook] updBody 7 updParsed bookSchema_updBody⟩

/-- C7: creating a record and then fetching by the identifier of the record
returned by create succeeds with status 200 and returns that same record. -/
theorem createBook_then_getBookById (db : List Book) (body : RawBook)
    (now : Nat) (d : BookInput) (hparse : bookSchema body = some d) :
    ∃ nb, (createBook db body now).book = some nb ∧
      getBookByIdNum (createBook db body now).db nb.bookId = ⟨200, some nb⟩ := by
  unfold createBook
  rw [hparse]
  cases hm : maxIdBook db with
  | none =>
    have hdb : db = [] := maxIdBook_eq_none hm
    subst hdb
    refine ⟨mkBook d 1 now, rfl, ?_⟩
    simp [getBookByIdNum, List.find?]
  | some m =>
    obtain ⟨hmem, hmax⟩ := maxIdBook_spec db m hm
    refine ⟨mkBook d (m.bookId + 1) now, rfl, ?_⟩
    unfold getBookByIdNum
    have hnone :
        db.find? (fun b => b.bookId == (mkBook d (m.bookId + 1) now).bookId) =
          none := by
      rw [List.find?_eq_none]
      intro b hb
      have := hmax b hb
      rw [mkBook_bookId]
      simp only [beq_iff_eq]
      omega
    rw [find?_append_of_none hnone]
    simp [List.find?]

/-- C7 witness: create into the empty collection, then fetch id 1. -/
theorem createBook_then_getBookById_witness :
    bookSchema updBody = some updParsed ∧
    ∃ nb, (createBook [] updBody 7).book = some nb ∧
      getBookByIdNum (createBook [] updBody 7).db nb.bookId = ⟨200, some nb⟩ :=
  ⟨bookSchema_updBody,
    createBook_then_getBookById [] updBody 7 updParsed bookSchema_updBody⟩

/-- C9 counterexample: a POST body carrying `bookId: 42` on an empty
collection produces a record with the server-derived id 1, not 42. -/
theorem createBook_client_id_cex :
    bodyWithClientId.bookId = some 42 ∧
    ((createBook [] bodyWithClientId 0).book.map Book.bookId) = some 1 ∧
    ((createBook [] bodyWithClientId 0).book.map Book.bookId) ≠ some 42 := by
  decide

/-- C9 amended: books cannot be created with a client-supplied identifier;
the POST endpoint's behaviour is unchanged by any `bookId` value in the body,
and the created record always carries the server-derived identifier. -/
theorem createBook_ignores_client_id (db : List Book) (body : RawBook)
    (v : Option Int) (now : Nat) :
    createBook db { body with bookId := v } now = createBook db body now := by
  cases body
  rfl

/-- C5: when the id parses to a number no stored record carries, the get,
update (with a valid body) and delete endpoints all answer 404 and leave the
collection unchanged. -/
theorem absent_id_gives_404 (db : List Book) (idStr : String) (body : RawBook)
    (n : Int) (d : BookInput) (hid : parseIntJS idStr = some n)
    (habsent : ∀ b ∈ db, ¬(b.bookId = n)) (hbody : bookSchema body = some d) :
    getBookById db idStr = ⟨404, none⟩ ∧
    updateBook db idStr body = (⟨404, none⟩, db) ∧
    deleteBook db idStr = (⟨404⟩, db) := by
  have hfind : db.find? (fun b => b.bookId == n) = none := by
    rw [List.find?_eq_none]
    intro b hb
    simpa using habsent b hb
  refine ⟨?_, ?_, ?_⟩
  · unfold getBookById getBookByIdNum
    simp only [hid, hfind]
  · unfold updateBook
    simp only [hid, hbody, findOneAndUpdate_not_found d habsent]
  · unfold deleteBook
    simp only [hid, findOneAndDelete_not_found habsent]

/-- C5 witness: id 2 is absent from a collection holding only id 1. -/
theorem absent_id_gives_404_witness :
    parseIntJS "2" = some 2 ∧ (∀ b ∈ [exBook], ¬(b.bookId = 2)) ∧
    bookSchema updBody = some updParsed ∧
    (getBookById [exBook] "2" = ⟨404, none⟩ ∧
     updateBook [exBook] "2" updBody = (⟨404, none⟩, [exBook]) ∧
     deleteBook [exBook] "2" = (⟨404⟩, [exBook])) :=
  ⟨by decide, by decide, bookSchema_updBody,
    absent_id_gives_404 [exBook] "2" updBody 2 updParsed (by decide)
      (by decide) bookSchema_updBody⟩

/-- C10: the id-taking endpoints reject with 400 exactly when JavaScript
`parseInt` of the path parameter is NaN (for update, given a body that passes
validation); a parsed id is used as the lookup number, and `"12abc"` parses
to 12. -/
theorem id_rejected_iff_parseInt_nan (db : List Book) (idStr : String)
    (body : RawBook) (d : BookInput) (hbody : bookSchema body = some d) :
    ((getBookById db idStr).status = 400 ↔ parseIntJS idStr = none) ∧
    ((updateBook db idStr body).1.status = 400 ↔ parseIntJS idStr = none) ∧
    ((deleteBook db idStr).1.status = 400 ↔ parseIntJS idStr = none) ∧
    (∀ n, parseIntJS idStr = some n →
      getBookById db idStr = getBookByIdNum db n) ∧
    parseIntJS "12abc" = some 12 := by
  cases hp : parseIntJS idStr with
  | none =>
    refine ⟨?_, ?_, ?_, ?_, by decide⟩
    · unfold getBookById
      rw [hp]
      simp
    · unfold updateBook
      rw [hp]
      simp
    · unfold deleteBook
      rw [hp]
      simp
    · intro n hn
      exact Option.noConfusion hn
  | some m =>
    have hg : getBookById db idStr = getBookByIdNum db m := by
      unfold getBookById
      rw [hp]
    refine ⟨?_, ?_, ?_, ?_, by decide⟩
    · rw [hg]
      unfold getBookByIdNum
      cases db.find? (fun b => b.bookId == m) <;> simp
    · unfold updateBook
      rw [hp, hbody]
      cases hr : findOneAndUpdate db m d with
      | mk db2 o => cases o <;> simp [hr]
    · unfold deleteBook
      rw [hp]
      cases hr : findOneAndDelete db m with
      | mk db2 o => cases o <;> simp [hr]
    · intro n hn
      obtain rfl := Option.some.inj hn
      exact hg

/-- C10 witness: the concrete id string `"12abc"` on a singleton collection
with a valid update body. -/
theorem id_rejected_iff_parseInt_nan_witness :
    bookSchema updBody = some updParsed ∧
    (((getBookById [exBook] "12abc").status = 400 ↔
        parseIntJS "12abc" = none) ∧
     ((updateBook [exBook] "12abc" updBody).1.status = 400 ↔
        parseIntJS "12abc" = none) ∧
     ((deleteBook [exBook] "12abc").1.status = 400 ↔
        parseIntJS "12abc" = none) ∧
     (∀ n, parseIntJS "12abc" = some n →
        getBookById [exBook] "12abc" = getBookByIdNum [exBook] n) ∧
     parseIntJS "12abc" = some 12) :=
  ⟨bookSchema_updBody,
    id_rejected_iff_parseInt_nan [exBook] "12abc" updBody updParsed
      bookSchema_updBody⟩

/-- Validated parameters of a list request with everything omitted. -/
def defaultParams : FilterParams :=
  { page := 1, limit := 10, sort := "dateAdded", order := SortOrder.desc,
    shelf := none, search := none, minRating := none, maxRating := none,
    startDate := none, endDate := none }

/-- C8: in every list request that passes validation, each of page, limit,
sort and order that is omitted takes its default (page=1, limit=10,
sort="dateAdded", order=desc), independently of which other parameters are
present. -/
theorem filterSchema_defaults (q : RawFilters) (p : FilterParams)
    (h : filterSchema q = some p) :
    (q.page = none → p.page = 1) ∧
    (q.limit = none → p.limit = 10) ∧
    (q.sort = none → p.sort = "dateAdded") ∧
    (q.order = none → p.order = SortOrder.desc) := by
  unfold filterSchema at h
  dsimp only at h
  split at h
  · exact absurd h (by simp)
  · rename_i order heq
    split at h
    · exact absurd h (by simp)
    · rw [← Option.some.inj h]
      refine ⟨?_, ?_, ?_, ?_⟩
      · intro hp
        simp [hp]
      · intro hl
        simp [hl]
      · intro hs
        simp [hs]
      · intro ho
        rw [ho] at heq
        simp only [Option.some.injEq] at heq
        exact heq.symm

/-- Concrete list query with page supplied and limit, sort, order omitted. -/
def partialQuery : RawFilters := { page := some 3 }

/-- Validated form of `partialQuery`: the omitted parameters defaulted. -/
def partialParams : FilterParams :=
  { page := 3, limit := 10, sort := "dateAdded", order := SortOrder.desc,
    shelf := none, search := none, minRating := none, maxRating := none,
    startDate := none, endDate := none }

/-- C8 witness: a query supplying only page=3 parses with the defaults
limit 10, sort "dateAdded", order desc for its omitted parameters. -/
theorem filterSchema_defaults_witness :
    filterSchema partialQuery = some partialParams ∧
    ((partialQuery.page = none → partialParams.page = 1) ∧
     (partialQuery.limit = none → partialParams.limit = 10) ∧
     (partialQuery.sort = none → partialParams.sort = "dateAdded") ∧
     (partialQuery.order = none → partialParams.order = SortOrder.desc)) :=
  ⟨by decide, filterSchema_defaults partialQuery partialParams (by decide)⟩

/-- C2: a valid list request answers 200 with a body whose `totalItems` is
the number of stored records matching the filter, whose `totalPages` is the
ceiling of `totalItems` over the effective limit, whose `currentPage` is the
validated page, and whose `data` holds at most `limit` records. -/
theorem getBooks_response_shape (db : List Book) (q : RawFilters)
    (p : FilterParams) (h : filterSchema q = some p) :
    (getBooks db q).status = 200 ∧
    ∃ pl, (getBooks db q).payload = some pl ∧
      pl.totalItems = (db.filter (matchesFilter p)).length ∧
      pl.totalPages = pl.totalItems ⌈/⌉ p.limit.toNat ∧
      pl.currentPage = p.page ∧
      pl.data.length ≤ p.limit.toNat := by
  unfold getBooks
  rw [h]
  refine ⟨rfl, getBooksCore db p, rfl, ?_, ?_, rfl, ?_⟩
  · simp [getBooksCore, List.countP_eq_length_filter]
  · simp [getBooksCore, Nat.ceilDiv_eq_add_pred_div]
  · simp [getBooksCore]

/-- C2 witness: the empty query against a singleton collection. -/
theorem getBooks_response_shape_witness :
    filterSchema emptyQuery = some defaultParams ∧
    ((getBooks [exBook] emptyQuery).status = 200 ∧
     ∃ pl, (getBooks [exBook] emptyQuery).payload = some pl ∧
       pl.totalItems =
         ([exBook].filter (matchesFilter defaultParams)).length ∧
       pl.totalPages = pl.totalItems ⌈/⌉ defaultParams.limit.toNat ∧
       pl.currentPage = defaultParams.page ∧
       pl.data.length ≤ defaultParams.limit.toNat) :=
  ⟨by decide,
    getBooks_response_shape [exBook] emptyQuery defaultParams (by decide)⟩

/-- Every collection reachable through the endpoints stores only legal shelf
values. -/
lemma reachable_validShelf {db : List Book} (h : Reachable db) :
    ∀ b ∈ db, validShelf b.exclusiveShelf = true := by
  induction h with
  | empty => intro b hb; simp at hb
  | create db body now hr ih =>
    intro b hb
    unfold createBook at hb
    cases hp : bookSchema body with
    | none =>
      simp only [hp] at hb
      exact ih b hb
    | some d =>
      simp only [hp] at hb
      rcases List.mem_append.mp hb with hx | hx
      · exact ih b hx
      · rw [List.mem_singleton.mp hx]
        exact bookSchema_validShelf hp
  | update db idStr body hr ih =>
    intro b hb
    unfold updateBook at hb
    cases hp : parseIntJS idStr with
    | none =>
      simp only [hp] at hb
      exact ih b hb
    | some n =>
      simp only [hp] at hb
      cases hq : bookSchema body with
      | none =>
        simp only [hq] at hb
        exact ih b hb
      | some d =>
        simp only [hq] at hb
        cases hr2 : findOneAndUpdate db n d with
        | mk db2 o =>
          have hb' : b ∈ (findOneAndUpdate db n d).1 := by
            rw [hr2]
            cases o <;> simpa [hr2] using hb
          rcases findOneAndUpdate_mem hb' with hx | ⟨y, hy, hxy⟩
          · exact ih b hx
          · rw [hxy, applyUpdate_shelf]
            exact bookSchema_validShelf hq
  | del db idStr hr ih =>
    intro b hb
    unfold deleteBook at hb
    cases hp : parseIntJS idStr with
    | none =>
      simp only [hp] at hb
      exact ih b hb
    | some n =>
      simp only [hp] at hb
      cases hr2 : findOneAndDelete db n with
      | mk db2 o =>
        have hb' : b ∈ (findOneAndDelete db n).1 := by
          rw [hr2]
          cases o <;> simpa [hr2] using hb
        exact ih b (findOneAndDelete_mem hb')

/-- C6: in every reachable collection each record's shelf is one of the three
legal values, and the three per-shelf statistics counts sum to the total
count. -/
theorem reachable_shelf_partition (db : List Book) (h : Reachable db) :
    (∀ b ∈ db, validShelf b.exclusiveShelf = true) ∧
    (getBookStats db).readBooks + (getBookStats db).readingBooks +
      (getBookStats db).toReadBooks = (getBookStats db).totalBooks := by
  have hv := reachable_validShelf h
  exact ⟨hv, shelf_counts_partition db hv⟩

/-- C6 witness: the collection obtained by one successful create. -/
theorem reachable_shelf_partition_witness :
    Reachable (createBook [] updBody 0).db ∧
    ((∀ b ∈ (createBook [] updBody 0).db, validShelf b.exclusiveShelf = true) ∧
     (getBookStats (createBook [] updBody 0).db).readBooks +
       (getBookStats (createBook [] updBody 0).db).readingBooks +
       (getBookStats (createBook [] updBody 0).db).toReadBooks =
       (getBookStats (createBook [] updBody 0).db).totalBooks) :=
  ⟨Reachable.create [] updBody 0 Reachable.empty,
    reachable_shelf_partition _ (Reachable.create [] updBody 0 Reachable.empty)⟩

/-- An update writes exactly the first matching document. -/
lemma findOneAndUpdate_split (pre suf : List Book) (b : Book) (n : Int)
    (d : BookInput) (hpre : ∀ x ∈ pre, ¬(x.bookId = n)) (hb : b.bookId = n) :
    findOneAndUpdate (pre ++ b :: suf) n d =
      (pre ++ applyUpdate b d :: suf, some (applyUpdate b d)) := by
  induction pre with
  | nil =>
    simp only [List.nil_append, findOneAndUpdate, beq_iff_eq, if_pos hb]
  | cons a rest ih =>
    have ha : ¬(a.bookId = n) := hpre a (List.mem_cons_self _ _)
    have hrest : ∀ x ∈ rest, ¬(x.bookId = n) := fun x hx =>
      hpre x (List.mem_cons_of_mem _ hx)
    simp only [List.cons_append, findOneAndUpdate, beq_iff_eq, if_neg ha,
      List.append_eq]
    rw [ih hrest]

/-- Frame property of one update image: the identifier and creation date are
preserved, every optional field parsed to `undefined` keeps its stored value,
and every field present in the validated payload (including the Zod-defaulted
ones) takes the payload's value. -/
def UpdateFrame (b : Book) (d : BookInput) : Prop :=
  (applyUpdate b d).bookId = b.bookId ∧
  (applyUpdate b d).dateAdded = b.dateAdded ∧
  (d.authorByLastName = none →
    (applyUpdate b d).authorByLastName = b.authorByLastName) ∧
  (d.additionalAuthors = none →
    (applyUpdate b d).additionalAuthors = b.additionalAuthors) ∧
  (d.isbn = none → (applyUpdate b d).isbn = b.isbn) ∧
  (d.isbn13 = none → (applyUpdate b d).isbn13 = b.isbn13) ∧
  (d.averageRating = none →
    (applyUpdate b d).averageRating = b.averageRating) ∧
  (d.publisher = none → (applyUpdate b d).publisher = b.publisher) ∧
  (d.binding = none → (applyUpdate b d).binding = b.binding) ∧
  (d.editionPublished = none →
    (applyUpdate b d).editionPublished = b.editionPublished) ∧
  (d.published = none → (applyUpdate b d).published = b.published) ∧
  (d.dateRead = none → (applyUpdate b d).dateRead = b.dateRead) ∧
  (d.bookshelvesWithPositions = none →
    (applyUpdate b d).bookshelvesWithPositions = b.bookshelvesWithPositions) ∧
  (d.review = none → (applyUpdate b d).review = b.review) ∧
  (d.spoiler = none → (applyUpdate b d).spoiler = b.spoiler) ∧
  (d.privateNotes = none → (applyUpdate b d).privateNotes = b.privateNotes) ∧
  (applyUpdate b d).title = d.title ∧
  (applyUpdate b d).author = d.author ∧
  (applyUpdate b d).rating = d.rating ∧
  (applyUpdate b d).pages = d.pages ∧
  (applyUpdate b d).beqValue = d.beqValue ∧
  (applyUpdate b d).bookshelves = d.bookshelves ∧
  (applyUpdate b d).exclusiveShelf = d.exclusiveShelf ∧
  (applyUpdate b d).readCount = d.readCount ∧
  (applyUpdate b d).ownedCopies = d.ownedCopies

/-- C3 counterexample: an update payload that omits `rating` (and passes
validation) resets the stored rating to the Zod default 0 rather than keeping
the prior value 5, so an unspecified stored field does not keep its value. -/
theorem updateBook_omitted_rating_cex :
    updBody.rating = none ∧ exBook.rating = 5 ∧
    ((updateBook [exBook] "1" updBody).1.book.map Book.rating) = some 0 := by
  decide

/-- C3 amended: the update endpoint writes only the first record whose id
matches, preserves its identifier and `dateAdded`, keeps the stored value of
every optional field absent from the validated payload, and sets every field
the validated payload carries — including the Zod defaults filled in for
omitted defaulted fields (`rating`, `beqValue`, `bookshelves`,
`exclusiveShelf`, `readCount`, `ownedCopies`). -/
theorem updateBook_frame (pre suf : List Book) (b : Book) (idStr : String)
    (body : RawBook) (n : Int) (d : BookInput)
    (hid : parseIntJS idStr = some n) (hparse : bookSchema body = some d)
    (hpre : ∀ x ∈ pre, ¬(x.bookId = n)) (hb : b.bookId = n) :
    updateBook (pre ++ b :: suf) idStr body =
      (⟨200, some (applyUpdate b d)⟩, pre ++ applyUpdate b d :: suf) ∧
    UpdateFrame b d := by
  constructor
  · unfold updateBook
    simp only [hid, hparse, findOneAndUpdate_split pre suf b n d hpre hb]
  · refine ⟨rfl, rfl, ?_, ?_, ?_, ?_, ?_, ?_, ?_, ?_, ?_, ?_, ?_, ?_, ?_, ?_,
      rfl, rfl, rfl, rfl, rfl, rfl, rfl, rfl, rfl⟩ <;>
      (intro h; simp [applyUpdate, setIfGiven, h])

/-- C3 witness: updating the singleton collection at id 1. -/
theorem updateBook_frame_witness :
    parseIntJS "1" = some 1 ∧ bookSchema updBody = some updParsed ∧
    exBook.bookId = 1 ∧
    (updateBook ([] ++ exBook :: []) "1" updBody =
      (⟨200, some (applyUpdate exBook updParsed)⟩,
        [] ++ applyUpdate exBook updParsed :: []) ∧
     UpdateFrame exBook updParsed) :=
  ⟨by decide, bookSchema_updBody, rfl,
    updateBook_frame [] [] exBook "1" updBody 1 updParsed (by decide)
      bookSchema_updBody (by decide) rfl⟩

/-- Validated parameters of a list request whose only filter is the search
string "dune". -/
def searchParams : FilterParams :=
  { page := 1, limit := 10, sort := "dateAdded", order := SortOrder.desc,
    shelf := none, search := some "dune", minRating := none, maxRating := none,
    startDate := none, endDate := none }

/-- Validated form of `searchQuery`. -/
def pearsonParams : FilterParams :=
  { page := 1, limit := 10, sort := "dateAdded", order := SortOrder.desc,
    shelf := none, search := some "pearson", minRating := none,
    maxRating := none, startDate := none, endDate := none }

/-- C4 counterexample: with search string "pearson" the list endpoint returns
a record although the string occurs in neither its title nor its author — it
occurs in the publisher, which the code also searches. -/
theorem getBooks_search_publisher_cex :
    ((getBooks [exBook] searchQuery).payload.map Paginated.data) =
      some [exBook] ∧
    ciSub "pearson" exBook.title = false ∧
    ciSub "pearson" exBook.author = false ∧
    ciSubOpt "pearson" exBook.publisher = true := by
  refine ⟨?_, by decide, by decide, by decide⟩
  have hq : filterSchema searchQuery = some pearsonParams := by decide
  have hf : [exBook].filter (matchesFilter pearsonParams) = [exBook] := by
    decide
  unfold getBooks
  rw [hq]
  dsimp only [getBooksCore, sortBooks]
  rw [hf, List.mergeSort_singleton]
  decide

/-- C4 amended: for a list request whose only filter is a non-empty search
string, with page 1 and a limit at least the collection size, a stored record
is returned exactly when the search string occurs case-insensitively in its
title, author, publisher or review. -/
theorem getBooks_search_matches (db : List Book) (p : FilterParams)
    (s : String) (hs : p.search = some s) (hne : ¬(s = ""))
    (hshelf : p.shelf = none) (hmin : p.minRating = none)
    (hmax : p.maxRating = none) (hsd : p.startDate = none)
    (hed : p.endDate = none) (hpage : p.page = 1)
    (hlim : db.length ≤ p.limit.toNat) (b : Book) (hb : b ∈ db) :
    b ∈ (getBooksCore db p).data ↔
      (ciSub s b.title || ciSub s b.author || ciSubOpt s b.publisher ||
        ciSubOpt s b.review) = true := by
  unfold getBooksCore
  dsimp only
  rw [hpage]
  norm_num
  have hlen :
      (sortBooks p.sort p.order (db.filter (matchesFilter p))).length ≤
        p.limit.toNat := by
    unfold sortBooks
    rw [List.length_mergeSort]
    exact le_trans (List.length_filter_le _ _) hlim
  rw [List.take_of_length_le hlen]
  unfold sortBooks
  rw [List.Perm.mem_iff (List.mergeSort_perm _ _), List.mem_filter]
  simp [hb, matchesFilter, hs, hshelf, hmin, hmax, hsd, hed, hne]

/-- C4 witness: searching "dune" in the singleton collection. -/
theorem getBooks_search_matches_witness :
    searchParams.search = some "dune" ∧ ¬("dune" = "") ∧
    [exBook].length ≤ searchParams.limit.toNat ∧ exBook ∈ [exBook] ∧
    (exBook ∈ (getBooksCore [exBook] searchParams).data ↔
      (ciSub "dune" exBook.title || ciSub "dune" exBook.author ||
        ciSubOpt "dune" exBook.publisher ||
        ciSubOpt "dune" exBook.review) = true) :=
  ⟨rfl, by decide, by decide, by decide,
    getBooks_search_matches [exBook] searchParams "dune" rfl (by decide) rfl
      rfl rfl rfl rfl rfl (by decide) exBook (by decide)⟩
